import Mathlib

/-!
Verification of the session-orchestrator core of the Cylynk lab
infrastructure (Python Lambda sources under `modules/orchestrator/lambda`)
against its natural-language specification.

The Python sources are shallowly embedded: each Lean definition mirrors one
Python function (file and line references in the doc comments).  External
I/O (DynamoDB, EC2, the Guacamole display gateway) is supplied through
explicit oracle inputs, and state-store writes are recorded as an explicit
effect trace.  The spec calls Guacamole "the display gateway"; names such
as `stale_gateway_logout` in the spec denote the source's
`stale_guacamole_logout`.
-/

set_option autoImplicit false

namespace Cylynk

/-! ### Status constants (common/utils.py, classes SessionStatus / InstanceStatus) -/

namespace SessionStatus

def pending : String := "pending"

def provisioning : String := "provisioning"

def ready : String := "ready"

def active : String := "active"

def terminating : String := "terminating"

def terminated : String := "terminated"

def error : String := "error"

end SessionStatus

namespace InstanceStatus

def available : String := "available"

def assigned : String := "assigned"

def starting : String := "starting"

def stopping : String := "stopping"

def unhealthy : String := "unhealthy"

end InstanceStatus

/-! ### The conditional-update primitive (common/utils.py, lines 206-246) -/

/-- Possible outcomes of the underlying DynamoDB `update_item` call made by
`DynamoDBClient.conditional_update`: the write commits, or it raises
`ClientError` with code `ConditionalCheckFailedException` (the expected
race), or it raises `ClientError` with any other code (a transient I/O
error). -/
inductive DynamoOutcome where
  | committed
  | conditionFailed
  | ioError
deriving DecidableEq, Repr

/-- Return value of `DynamoDBClient.conditional_update` (common/utils.py,
lines 206-246) as a function of the underlying call's outcome.  The
docstring of the source reads: "Returns True if update succeeded, False if
condition failed or error occurred"; both `except` branches return
`False`. -/
def conditional_update_result : DynamoOutcome → Bool
  | .committed => true
  | .conditionFailed => false
  | .ioError => false

/-! ### Monthly quota (common/utils.py, UsageTracker, lines 375-411) -/

/-- Calendar month in UTC, as used by `UsageTracker.check_quota` via
`datetime.now(timezone.utc)`. -/
structure MonthDate where
  year : Nat
  month : Nat
deriving DecidableEq, Repr

/-- First day of the next calendar month: `check_quota` (common/utils.py,
lines 399-404) builds `datetime(year+1, 1, 1)` when the current month is
December and `datetime(year, month+1, 1)` otherwise, both at the first
instant of the day in UTC. -/
def next_month_start (now : MonthDate) : MonthDate :=
  if now.month = 12 then { year := now.year + 1, month := 1 }
  else { year := now.year, month := now.month + 1 }

/-- Result dictionary of `UsageTracker.check_quota`. -/
structure QuotaCheck where
  allowed : Bool
  consumed_minutes : Int
  remaining_minutes : Int
  resets_at : Option MonthDate
deriving DecidableEq, Repr

/-- `UsageTracker.check_quota` (common/utils.py, lines 381-411).  The
`consumed` argument is the stored value read by `get_usage_minutes` for
`(user_id, current month)`. -/
def check_quota (consumed : Int) (quota_minutes : Int) (now : MonthDate) : QuotaCheck :=
  if quota_minutes = -1 then
    { allowed := true
      consumed_minutes := 0
      remaining_minutes := -1
      resets_at := none }
  else
    let remaining := quota_minutes - consumed
    { allowed := decide (remaining > 0)
      consumed_minutes := consumed
      remaining_minutes := max 0 remaining
      resets_at := some (next_month_start now) }

/-! ### Per-tier scaling (pool-manager/index.py, manage_scaling_for_plan, lines 585-656) -/

/-- Capacity settings of one autoscaling group, as returned by
`AutoScalingClient.get_asg_capacity` (common/utils.py, lines 620-637). -/
structure AsgCapacity where
  minSize : Nat
  maxSize : Nat
  desired : Nat
deriving DecidableEq, Repr

/-- Scaling decision taken by one `manage_scaling_for_plan` cycle. -/
inductive ScalingAction where
  | noAction
  | scaleUp (newCapacity : Nat)
  | scaleDown (newCapacity : Nat)
deriving DecidableEq, Repr

/-- `manage_scaling_for_plan` (pool-manager/index.py, lines 585-656): the
per-tier scaling decision from the tier's session count
(`active_count`: sessions in pending/provisioning/ready/active), the
tier's pool counts by status, and the group capacity.  The
`set_desired_capacity` call it issues carries the returned capacity. -/
def manage_scaling_for_plan (active_count available_count starting_count assigned_count : Nat)
    (cap : AsgCapacity) : ScalingAction :=
  let instances_in_progress := available_count + starting_count + assigned_count
  if active_count > instances_in_progress ∧ starting_count = 0 then
    if cap.desired < cap.maxSize then
      let deficit := active_count - instances_in_progress
      let scale_amount := min deficit 2
      ScalingAction.scaleUp (min (cap.desired + scale_amount) cap.maxSize)
    else
      ScalingAction.noAction
  else if available_count > 2 ∧ active_count = 0 then
    if cap.desired > cap.minSize then
      ScalingAction.scaleDown (max (cap.desired - 1) cap.minSize)
    else
      ScalingAction.noAction
  else
    ScalingAction.noAction

/-! ### Gateway URL construction (common/utils.py, GuacamoleClient) -/

/-- UTF-8 encoding of one code point (Python `str.encode()` with the
default encoding), bytes as `Nat` values below 256. -/
def utf8Char (c : Char) : List Nat :=
  let n := c.toNat
  if n < 128 then [n]
  else if n < 2048 then [192 + n / 64, 128 + n % 64]
  else if n < 65536 then [224 + n / 4096, 128 + (n / 64) % 64, 128 + n % 64]
  else [240 + n / 262144, 128 + (n / 4096) % 64, 128 + (n / 64) % 64, 128 + n % 64]

/-- UTF-8 encoding of a string (Python `str.encode()`). -/
def utf8 (s : String) : List Nat :=
  s.data.flatMap utf8Char

/-- Character `i` of the standard base64 alphabet. -/
def b64Char (i : Nat) : Char :=
  "ABCDEFGHIJKLMNOPQRSTUVWXYZabcdefghijklmnopqrstuvwxyz0123456789+/".toList.getD i 'A'

/-- Standard base64 encoding with `=` padding (Python `base64.b64encode`). -/
def base64Encode : List Nat → String
  | [] => ""
  | [a] =>
    String.mk [b64Char (a / 4), b64Char (a % 4 * 16), '=', '=']
  | [a, b] =>
    String.mk [b64Char (a / 4), b64Char (a % 4 * 16 + b / 16), b64Char (b % 16 * 4), '=']
  | a :: b :: c :: rest =>
    String.mk [b64Char (a / 4), b64Char (a % 4 * 16 + b / 16),
      b64Char (b % 16 * 4 + c / 64), b64Char (c % 64)] ++ base64Encode rest

/-- Connection identifier built by `GuacamoleClient.get_connection_with_token_url`
(common/utils.py, lines 897-900) and by `create_session_user_and_get_url`
(lines 1292-1295): `base64.b64encode(f"{connection_id}\x00c\x00{data_source}".encode())`. -/
def guac_encoded_id (connection_id data_source : String) : String :=
  base64Encode (utf8 (connection_id ++ "\x00c\x00" ++ data_source))

/-- Tokenized viewer URL returned by
`GuacamoleClient.get_connection_with_token_url` (common/utils.py,
lines 880-902) once an auth token is held:
`f"{base_url}/?token={token}#/client/{encoded_id}"`. -/
def get_connection_with_token_url (base_url token connection_id data_source : String) : String :=
  base_url ++ "/?token=" ++ token ++ "#/client/" ++ guac_encoded_id connection_id data_source

/-- Final URL returned by `GuacamoleClient.create_session_user_and_get_url`
(common/utils.py, lines 1288-1297) once the ephemeral user's token is
obtained: `f"{base_url}/?token={user_token}#/client/{encoded_id}"`. -/
def create_session_user_url (base_url user_token connection_id data_source : String) : String :=
  base_url ++ "/?token=" ++ user_token ++ "#/client/" ++ guac_encoded_id connection_id data_source

/-! ### Moodle token verification (common/utils.py, MoodleTokenVerifier, lines 1304-1402) -/

/-- Fields of the decoded token payload consulted by `verify_token`:
`payload.get("expires", 0)` and `payload.get("nonce")`.  A missing nonce is
modelled as the empty string, which is falsy in Python exactly like a
missing key. -/
structure TokenPayload where
  user_id : String
  expires : Int
  nonce : String
deriving DecidableEq, Repr

/-- State of a `MoodleTokenVerifier` instance: the shared secret and the
in-memory set `_used_nonces`. -/
structure VerifierState where
  secret : String
  used_nonces : List String
deriving DecidableEq, Repr

/-- Helper for `splitDot`: accumulate the current piece (reversed) while
scanning. -/
def splitDotAux : List Char → List Char → List String
  | [], acc => [String.mk acc.reverse]
  | c :: cs, acc =>
    if c = '.' then String.mk acc.reverse :: splitDotAux cs []
    else splitDotAux cs (c :: acc)

/-- Python `token.split(".")` (common/utils.py, line 1339). -/
def splitDot (s : String) : List String :=
  splitDotAux s.data []

/-- `MoodleTokenVerifier.verify_token` (common/utils.py, lines 1323-1385).

The two library primitives the method calls are passed in as oracles:
`hmacHex secret msg` stands for
`hmac.new(secret.encode(), msg.encode(), hashlib.sha256).hexdigest()`
(lower-case hex HMAC-SHA256), and `decodePayload b64` stands for
`json.loads(base64url_decode(b64))` together with the `.get` defaults,
returning `none` when decoding raises (the `except` branch returns
`None`).  `hmac.compare_digest` is functionally string equality (its
constant-time execution is a timing property outside this model).
`nowT` is `time.time()`. -/
def verify_token (st : VerifierState) (hmacHex : String → String → String)
    (decodePayload : String → Option TokenPayload) (nowT : Int) (token : String) :
    Option TokenPayload :=
  if token = "" ∨ st.secret = "" then none
  else
    match splitDot token with
    | [payload_base64, signature] =>
      if signature = hmacHex st.secret payload_base64 then
        match decodePayload payload_base64 with
        | none => none
        | some payload =>
          if nowT > payload.expires then none
          else if payload.nonce ≠ "" then
            if payload.nonce ∈ st.used_nonces then none else some payload
          else some payload
      else none
    | _ => none

/-- Nonce history with observation times, used only to state the spec's
five-minute replay window; the source keeps just the bare set
`_used_nonces` (the names, with no timestamps). -/
def noncesOf (seen : List (String × Int)) : List String :=
  seen.map Prod.fst

/-- Acceptance predicate written from the spec's words, for the refinement
comparison: accept iff the signature matches, the payload decodes, the
`expires` field is not in the past, and the nonce has not been seen within
the last 5 minutes (300 seconds). -/
def verify_token_spec (secret : String) (seen : List (String × Int))
    (hmacHex : String → String → String) (decodePayload : String → Option TokenPayload)
    (nowT : Int) (token : String) : Option TokenPayload :=
  match splitDot token with
  | [payload_base64, signature] =>
    if signature = hmacHex secret payload_base64 then
      match decodePayload payload_base64 with
      | none => none
      | some payload =>
        if nowT > payload.expires then none
        else if payload.nonce ≠ "" ∧
            seen.any (fun p => p.1 = payload.nonce ∧ nowT - p.2 ≤ 300) then none
        else some payload
    else none
  | _ => none

/-! ### Data model (spec section 3; DynamoDB items used by the handlers) -/

/-- The `connection_info` fields consulted by the handlers. -/
structure ConnInfo where
  guacamole_connection_id : Option String := none
  guacamole_session_user : Option String := none
deriving DecidableEq, Repr

/-- A Sessions-table record, restricted to the attributes the embedded
handlers read or write. -/
structure Session where
  session_id : String
  student_id : String
  status : String
  plan : String := "freemium"
  instance_id : Option String := none
  connection_info : ConnInfo := {}
  created_at : Nat := 0
  expires_at : Nat := 0
  last_active_at : Nat := 0
deriving DecidableEq, Repr

/-- An InstancePool-table record. -/
structure PoolRecord where
  instance_id : String
  status : String
  plan : String := "pro"
  session_id : Option String := none
  student_id : Option String := none
deriving DecidableEq, Repr

/-- State-store, cloud and gateway writes attempted by the handlers, in
program order.  An entry records that the call was issued; whether the
backing service accepted it is governed by the environment's oracles. -/
inductive Effect where
  | sessPut (record : Session)
  | sessMarkTerminated (session_id reason : String)
  | sessSetTerminating (session_id reason : String)
  | sessSetTerminatedFinal (session_id : String)
  | sessSetProvisioning (session_id : String)
  | sessSetReady (session_id instance_id instance_ip : String)
  | sessSetError (session_id : String)
  | poolRelease (instance_id : String)
  | poolReleaseTo (instance_id new_status : String)
  | poolMarkUnhealthy (instance_id : String)
  | poolCondClaim (instance_id session_id student_id : String)
  | poolPutAssigned (instance_id session_id student_id plan : String)
  | poolPutStarting (instance_id session_id student_id plan : String)
  | ec2Tag (instance_id : String)
  | ec2Start (instance_id : String)
  | ec2Stop (instance_id : String)
  | asgSetDesired (n : Nat)
  | guacKillSessions (connection_id : String)
  | guacDeleteConnection (connection_id : String)
  | guacDeleteUser (user : String)
  | usageRecord (student_id : String) (minutes : Nat)
deriving DecidableEq, Repr

/-! ### create-session handler (create-session/index.py, handler, lines 362-864) -/

/-- Responses of the create-session handler after authentication has been
resolved (body parsed, `student_id` present, plan and quota resolved). -/
inductive CreateResp where
  | quotaExceeded (plan : String) (consumed_minutes quota_minutes remaining_minutes : Int)
      (resets_at : Option MonthDate)
  | reusedSession (session_id status : String)
  | ready (session_id instance_id : String)
  | provisioningScaleUp (session_id : String)
  | provisioningStarting (session_id : String)
  | capacityError
  | serverError
deriving DecidableEq, Repr

/-- Environment of one create-session invocation: configuration, the
identifiers the request resolved to, and oracles giving each external
read's result.  The handler runs alone against this snapshot (the
concurrent-claim analysis uses the small-step pool model further down). -/
structure CreateEnv where
  max_sessions : Nat
  usage_table_configured : Bool
  guac_url_configured : Bool
  student_id : String
  plan : String
  quota_minutes : Int
  consumed : Int
  now_date : MonthDate
  now : Nat
  ttl_seconds : Nat
  new_session_id : String
  existing_sessions : List Session
  guac_active : String → Bool
  sess_put_ok : Bool
  pool_available : List PoolRecord
  ec2_running : String → Bool
  ec2_ip : String → String
  asg_instances : List (String × String)
  ec2_state : String → Option String
  ec2_start_ok : String → Bool
  pool_get_item : String → Option PoolRecord
  sess_status_of : String → Option String
  capacity : AsgCapacity
  asg_set_ok : Bool

/-- Statuses counted as an existing active session (create-session
lines 465-469). -/
def active_status (s : String) : Bool :=
  s == SessionStatus.pending || s == SessionStatus.provisioning ||
    s == SessionStatus.ready || s == SessionStatus.active

/-- `cleanup_stale_session` (create-session/index.py, lines 168-269),
called with `reason="stale_guacamole_logout"` (line 534): mark the session
terminated, release its instance if any, then best-effort delete the
Guacamole connection and session user when a Guacamole URL is
configured. -/
def cleanup_stale_session (env : CreateEnv) (s : Session) : List Effect :=
  Effect.sessMarkTerminated s.session_id "stale_guacamole_logout" ::
    ((match s.instance_id with
      | some iid => [Effect.poolRelease iid]
      | none => []) ++
     (if env.guac_url_configured = true ∧
         (s.connection_info.guacamole_connection_id.isSome = true ∨
          s.connection_info.guacamole_session_user.isSome = true) then
        (match s.connection_info.guacamole_connection_id with
         | some cid => [Effect.guacDeleteConnection cid]
         | none => []) ++
        (match s.connection_info.guacamole_session_user with
         | some u => [Effect.guacDeleteUser u]
         | none => [])
      else []))

/-- New pending Sessions record written before allocation (create-session
lines 547-559). -/
def new_session_record (env : CreateEnv) : Session :=
  { session_id := env.new_session_id
    student_id := env.student_id
    status := SessionStatus.pending
    plan := env.plan
    created_at := env.now
    expires_at := env.now + env.ttl_seconds }

/-- Claim loop over the plan-filtered available candidates (create-session
lines 582-654), one reconnaissance pass: for each candidate, verify with
EC2 that it is running (otherwise mark it unhealthy and continue), then
claim it with the conditional update.  Running alone against the queried
snapshot, the conditional update on a row read as available commits, and
the source's two backoff retries re-query the same snapshot, so a single
pass decides the outcome. -/
def allocate_from_pool (env : CreateEnv) :
    List PoolRecord → Option (String × String) × List Effect
  | [] => (none, [])
  | r :: rest =>
    if env.ec2_running r.instance_id then
      (some (r.instance_id, env.ec2_ip r.instance_id),
        [Effect.poolCondClaim r.instance_id env.new_session_id env.student_id,
         Effect.ec2Tag r.instance_id])
    else
      let next := allocate_from_pool env rest
      (next.1, Effect.poolMarkUnhealthy r.instance_id :: next.2)

/-- Outcome of the cold-start scan over the autoscaling group. -/
inductive ColdStart where
  | startedStopped (instance_id : String)
  | claimedRunning (instance_id instance_ip : String)
deriving DecidableEq, Repr

/-- The `can_use` decision for a running group member (create-session
lines 708-728): usable when it has no pool record, when its record is
available, or when its record is starting/assigned but names a session
that is missing, terminated or errored. -/
def cold_start_can_use (rec : Option PoolRecord)
    (sess_status_of : String → Option String) : Bool :=
  match rec with
  | none => true
  | some p =>
    if p.status == InstanceStatus.available then true
    else if p.status == InstanceStatus.starting || p.status == InstanceStatus.assigned then
      match p.session_id with
      | some sid =>
        match sess_status_of sid with
        | none => true
        | some st => st == SessionStatus.terminated || st == SessionStatus.error
      | none => false
    else false

/-- Cold-start scan (create-session lines 656-743): for each InService or
warm-pool member, start a stopped unassigned instance (pool record
`starting`, session to provisioning), or claim a usable running instance
with an unconditional `put_item` of an `assigned` record. -/
def cold_start_loop (env : CreateEnv) :
    List (String × String) → Option ColdStart × List Effect
  | [] => (none, [])
  | (iid, lifecycle) :: rest =>
    if lifecycle == "InService" || lifecycle == "Warmed:Stopped" then
      match env.ec2_state iid with
      | none => cold_start_loop env rest
      | some state =>
        let rec? := env.pool_get_item iid
        if state == "stopped" && !((rec?.map PoolRecord.status) == some InstanceStatus.assigned) then
          if env.ec2_start_ok iid then
            (some (ColdStart.startedStopped iid),
              [Effect.ec2Start iid,
               Effect.poolPutStarting iid env.new_session_id env.student_id env.plan,
               Effect.sessSetProvisioning env.new_session_id])
          else
            let next := cold_start_loop env rest
            (next.1, Effect.ec2Start iid :: next.2)
        else if state == "running" then
          if cold_start_can_use rec? env.sess_status_of then
            (some (ColdStart.claimedRunning iid (env.ec2_ip iid)),
              [Effect.poolPutAssigned iid env.new_session_id env.student_id env.plan])
          else cold_start_loop env rest
        else cold_start_loop env rest
    else cold_start_loop env rest

/-- Allocation phase (create-session lines 537-860): write the pending
session record, run the claim loop over the plan's available instances,
fall back to the cold-start scan, then to a scale-up request or a 503.
The gateway-programming block of the ready path (lines 786-837) is
abstracted into the single `sessSetReady` commit; no claim inspects its
internals. -/
def allocate_new (env : CreateEnv) : CreateResp × List Effect :=
  let record := new_session_record env
  if env.sess_put_ok = false then
    (CreateResp.serverError, [Effect.sessPut record])
  else
    let avail := env.pool_available.filter
      (fun r => r.status == InstanceStatus.available && r.plan == env.plan)
    let claim := allocate_from_pool env avail
    match claim.1 with
    | some (iid, ip) =>
      (CreateResp.ready env.new_session_id iid,
        Effect.sessPut record :: claim.2 ++ [Effect.sessSetReady env.new_session_id iid ip])
    | none =>
      let cold := cold_start_loop env env.asg_instances
      match cold.1 with
      | some (ColdStart.claimedRunning iid ip) =>
        (CreateResp.ready env.new_session_id iid,
          Effect.sessPut record :: claim.2 ++ cold.2 ++
            [Effect.sessSetReady env.new_session_id iid ip])
      | some (ColdStart.startedStopped _) =>
        (CreateResp.provisioningStarting env.new_session_id,
          Effect.sessPut record :: claim.2 ++ cold.2 ++
            [Effect.sessSetProvisioning env.new_session_id])
      | none =>
        if env.capacity.desired < env.capacity.maxSize then
          if env.asg_set_ok then
            (CreateResp.provisioningScaleUp env.new_session_id,
              Effect.sessPut record :: claim.2 ++ cold.2 ++
                [Effect.asgSetDesired (env.capacity.desired + 1),
                 Effect.sessSetProvisioning env.new_session_id])
          else
            (CreateResp.provisioningStarting env.new_session_id,
              Effect.sessPut record :: claim.2 ++ cold.2 ++
                [Effect.asgSetDesired (env.capacity.desired + 1),
                 Effect.sessSetProvisioning env.new_session_id])
        else
          (CreateResp.capacityError,
            Effect.sessPut record :: claim.2 ++ cold.2 ++
              [Effect.sessSetError env.new_session_id])

/-- Duplicate-session detection (create-session lines 460-535): when the
owner already holds `MAX_SESSIONS` active sessions, probe the first one's
Guacamole connection; an actively used session (or one still provisioning
with no connection yet) is returned as reused, otherwise the stale session
is cleaned up and the request falls through to allocation.  An empty
active list combined with `MAX_SESSIONS = 0` raises `IndexError` on
`active_sessions[0]`, caught by the outer handler as a 500. -/
def after_quota (env : CreateEnv) : CreateResp × List Effect :=
  let active := env.existing_sessions.filter (fun s => active_status s.status)
  if active.length ≥ env.max_sessions then
    match active with
    | [] => (CreateResp.serverError, [])
    | s :: _ =>
      match s.connection_info.guacamole_connection_id with
      | some cid =>
        if env.guac_active cid then
          (CreateResp.reusedSession s.session_id s.status, [])
        else
          let alloc := allocate_new env
          (alloc.1, cleanup_stale_session env s ++ alloc.2)
      | none =>
        if s.status == SessionStatus.pending || s.status == SessionStatus.provisioning then
          (CreateResp.reusedSession s.session_id s.status, [])
        else
          let alloc := allocate_new env
          (alloc.1, cleanup_stale_session env s ++ alloc.2)
  else
    allocate_new env

/-- The create-session handler after authentication (create-session
lines 433-864): quota gate first (lines 433-452), then duplicate-session
detection and allocation. -/
def create_session_handler (env : CreateEnv) : CreateResp × List Effect :=
  if env.usage_table_configured = true ∧ env.quota_minutes ≠ -1 then
    let qc := check_quota env.consumed env.quota_minutes env.now_date
    if qc.allowed then after_quota env
    else
      (CreateResp.quotaExceeded env.plan qc.consumed_minutes env.quota_minutes 0 qc.resets_at,
        [])
  else after_quota env

/-! ### terminate-session handler (terminate-session/index.py, lines 124-291) -/

/-- Responses of the terminate-session handler. -/
inductive TermResp where
  | notFound
  | alreadyTerminated (status : String)
  | terminated (session_id : String) (instance_stopped : Bool)
deriving DecidableEq, Repr

/-- Environment of one terminate-session invocation. -/
structure TermEnv where
  session : Option Session
  reason : String
  stop_instance : Bool
  enable_guac_cleanup : Bool
  guac_url_configured : Bool
  usage_table_configured : Bool
  now : Nat
  stop_ok : String → Bool

/-- `cleanup_guacamole_resources` (terminate-session/index.py,
lines 45-121): best-effort kill of active gateway sessions, deletion of
the connection, and deletion of the session user; every step is attempted
in its own `try` block, and everything is skipped when no Guacamole URL is
configured. -/
def cleanup_guacamole_resources (guac_url_configured : Bool)
    (connection_id session_username : Option String) : List Effect :=
  if guac_url_configured = false then []
  else
    (match connection_id with
     | some cid => [Effect.guacKillSessions cid, Effect.guacDeleteConnection cid]
     | none => []) ++
    (match session_username with
     | some u => [Effect.guacDeleteUser u]
     | none => [])

/-- terminate-session `handler` (terminate-session/index.py,
lines 124-291): 404 for an unknown session, an immediate success with no
writes for a session already terminated or terminating, and otherwise the
full termination sequence ending in the unconditional final write of
status `terminated`.  Every cleanup step's failure is swallowed by the
source (`ClientError` handlers returning `False`/`None`, or explicit
`try`/`except` blocks), so the trace of attempted writes does not depend
on the oracles. -/
def terminate_session_handler (env : TermEnv) : TermResp × List Effect :=
  match env.session with
  | none => (TermResp.notFound, [])
  | some s =>
    if s.status == SessionStatus.terminated || s.status == SessionStatus.terminating then
      (TermResp.alreadyTerminated s.status, [])
    else
      let guacEffs :=
        if env.enable_guac_cleanup = true ∧
            (s.connection_info.guacamole_connection_id.isSome = true ∨
             s.connection_info.guacamole_session_user.isSome = true) then
          cleanup_guacamole_resources env.guac_url_configured
            s.connection_info.guacamole_connection_id
            s.connection_info.guacamole_session_user
        else []
      let instEffs :=
        match s.instance_id with
        | some iid =>
          [Effect.poolReleaseTo iid
             (if env.stop_instance then InstanceStatus.stopping else InstanceStatus.available),
           Effect.ec2Tag iid] ++
            (if env.stop_instance then [Effect.ec2Stop iid] else [])
        | none => []
      let usageEffs :=
        if env.usage_table_configured = true ∧ s.student_id ≠ "" ∧
            30 ≤ env.now - s.created_at then
          [Effect.usageRecord s.student_id ((env.now - s.created_at) / 60)]
        else []
      let stopped :=
        match s.instance_id with
        | some iid => env.stop_instance && env.stop_ok iid
        | none => false
      (TermResp.terminated s.session_id stopped,
        Effect.sessSetTerminating s.session_id env.reason ::
          (guacEffs ++ instEffs ++ usageEffs ++ [Effect.sessSetTerminatedFinal s.session_id]))

/-! ### Small-step pool model for concurrent claims

DynamoDB serializes single-item writes, so an interleaved execution of
several handlers is a sequence of atomic reads and writes against the
table.  `conditional_claim` is the claim loop's write;  `put_claim` is the
cold-start path's write. -/

/-- Read an InstancePool row by key. -/
def pool_get (pool : List PoolRecord) (iid : String) : Option PoolRecord :=
  pool.find? (fun r => r.instance_id == iid)

/-- Write an InstancePool row by key (replace, or insert when absent). -/
def pool_set : List PoolRecord → PoolRecord → List PoolRecord
  | [], r => [r]
  | x :: xs, r => if x.instance_id = r.instance_id then r :: xs else x :: pool_set xs r

/-- Atomic claim via `DynamoDBClient.conditional_update` with condition
`#status = :available` (create-session lines 602-615): commits, and
transitions the row to `assigned`, exactly when the row currently reads
`available`. -/
def conditional_claim (pool : List PoolRecord) (iid sid stid : String) :
    Bool × List PoolRecord :=
  match pool_get pool iid with
  | some r =>
    if r.status = InstanceStatus.available then
      (true, pool_set pool
        { r with status := InstanceStatus.assigned, session_id := some sid,
                 student_id := some stid })
    else (false, pool)
  | none => (false, pool)

/-- Unconditional claim via `put_item` on the cold-start running path
(create-session lines 734-741): always commits, whatever the row
currently holds. -/
def put_claim (pool : List PoolRecord) (iid sid stid plan : String) : List PoolRecord :=
  pool_set pool
    { instance_id := iid, status := InstanceStatus.assigned, plan := plan,
      session_id := some sid, student_id := some stid }

/-- Recognizer for the 403 quota-exceeded response. -/
def CreateResp.isQuotaExceeded : CreateResp → Bool
  | CreateResp.quotaExceeded _ _ _ _ _ => true
  | _ => false

/-! ### Concrete fixture inputs (used by the witness statements) -/

/-- Fixture environment: user u4, freemium, quota 300 with 300 minutes
consumed, December 2025, empty pool (spec scenario S3). -/
def sample_base_env : CreateEnv where
  max_sessions := 1
  usage_table_configured := true
  guac_url_configured := true
  student_id := "u4"
  plan := "freemium"
  quota_minutes := 300
  consumed := 300
  now_date := { year := 2025, month := 12 }
  now := 1000000
  ttl_seconds := 14400
  new_session_id := "sess-new0001"
  existing_sessions := []
  guac_active := fun _ => false
  sess_put_ok := true
  pool_available := []
  ec2_running := fun _ => false
  ec2_ip := fun _ => "10.0.0.5"
  asg_instances := []
  ec2_state := fun _ => none
  ec2_start_ok := fun _ => true
  pool_get_item := fun _ => none
  sess_status_of := fun _ => none
  capacity := { minSize := 0, maxSize := 2, desired := 2 }
  asg_set_ok := true

/-- Fixture: same user with an unlimited plan and a large consumed
total. -/
def sample_unlimited_env : CreateEnv :=
  { sample_base_env with quota_minutes := -1, consumed := 99999 }

/-- Fixture: a ready session whose user has logged out of the gateway
(spec scenario S4). -/
def sample_stale_session : Session where
  session_id := "sess-old00001"
  student_id := "u5"
  status := SessionStatus.ready
  plan := "freemium"
  instance_id := some "i-X"
  connection_info :=
    { guacamole_connection_id := some "c1"
      guacamole_session_user := some "session_old00001" }
  created_at := 0
  expires_at := 2000000
  last_active_at := 100

/-- Fixture environment for the stale-session path: u5 already holds
`sample_stale_session` and the gateway reports no activity. -/
def sample_stale_env : CreateEnv :=
  { sample_base_env with
      quota_minutes := -1
      student_id := "u5"
      existing_sessions := [sample_stale_session] }

/-- Fixture: a ready session being terminated. -/
def sample_term_session : Session where
  session_id := "sess-t1"
  student_id := "u6"
  status := SessionStatus.ready
  plan := "pro"
  instance_id := some "i-T"
  connection_info :=
    { guacamole_connection_id := some "c9"
      guacamole_session_user := some "session_t1" }
  created_at := 0
  expires_at := 99999
  last_active_at := 0

/-- Fixture terminate environment in which every fallible cleanup step
fails (`stop_ok` reports failure; the other steps' failures are swallowed
inside the source and do not reach the trace). -/
def sample_term_env : TermEnv where
  session := some sample_term_session
  reason := "user_requested"
  stop_instance := true
  enable_guac_cleanup := true
  guac_url_configured := true
  usage_table_configured := true
  now := 3600
  stop_ok := fun _ => false

/-- Fixture: terminating an already-terminated session. -/
def sample_term_done_env : TermEnv :=
  { sample_term_env with
      session := some { sample_term_session with status := SessionStatus.terminated } }

/-- Fixture pool for the concurrent-claim analysis: a single available pro
instance. -/
def c1_pool0 : List PoolRecord :=
  [{ instance_id := "i-X", status := InstanceStatus.available, plan := "pro" }]

/-! ## Theorems -/

/-- C2 counterexample: the claim says the conditional-update primitive
returns, in its result type, a distinct outcome for condition-not-met
versus a transient I/O error.  In the source both outcomes map to the
same return value `False`, so the two results are equal, not distinct. -/
theorem c2_condition_vs_io_indistinct :
    conditional_update_result DynamoOutcome.conditionFailed =
      conditional_update_result DynamoOutcome.ioError := rfl

/-- C2 (amended): `conditional_update` returns a single boolean; `True`
when the write commits, `False` both when the condition is not met and on
any other client error, so the caller cannot tell a lost race from a
storage failure apart from the return value. -/
theorem c2_conditional_update_bool :
    conditional_update_result DynamoOutcome.committed = true ∧
    conditional_update_result DynamoOutcome.conditionFailed = false ∧
    conditional_update_result DynamoOutcome.ioError = false :=
  ⟨rfl, rfl, rfl⟩

/-- Helper: characterization of the scale-up branch of
`manage_scaling_for_plan`. -/
theorem manage_scaling_scaleUp_iff (A avail starting assigned : Nat) (cap : AsgCapacity)
    (n : Nat) :
    manage_scaling_for_plan A avail starting assigned cap = ScalingAction.scaleUp n ↔
      (avail + starting + assigned < A ∧ starting = 0 ∧ cap.desired < cap.maxSize ∧
        n = min (cap.desired + min (A - (avail + starting + assigned)) 2) cap.maxSize) := by
  unfold manage_scaling_for_plan
  by_cases h1 : A > avail + starting + assigned ∧ starting = 0
  · rw [if_pos h1]
    by_cases h2 : cap.desired < cap.maxSize
    · rw [if_pos h2]
      constructor
      · intro h
        simp only [ScalingAction.scaleUp.injEq] at h
        exact ⟨h1.1, h1.2, h2, h.symm⟩
      · rintro ⟨-, -, -, hn⟩
        rw [hn]
    · rw [if_neg h2]
      constructor
      · intro h
        simp at h
      · rintro ⟨-, -, hd, -⟩
        exact absurd hd h2
  · rw [if_neg h1]
    constructor
    · intro h
      split_ifs at h
    · rintro ⟨hA, hS, -, -⟩
      exact absurd ⟨hA, hS⟩ h1

/-- C7: the reconciler raises a tier's desired capacity exactly when the
tier's session count exceeds `available + starting + assigned`, no
instance of the tier is starting, and `desired < max`; the new desired
capacity is `min(desired + min(A - P, 2), max)`, hence at most
`desired + 2` and at most `max`. -/
theorem c7_scale_up_rule (A avail starting assigned : Nat) (cap : AsgCapacity) :
    (∀ n, manage_scaling_for_plan A avail starting assigned cap = ScalingAction.scaleUp n ↔
      (avail + starting + assigned < A ∧ starting = 0 ∧ cap.desired < cap.maxSize ∧
        n = min (cap.desired + min (A - (avail + starting + assigned)) 2) cap.maxSize)) ∧
    (∀ n, manage_scaling_for_plan A avail starting assigned cap = ScalingAction.scaleUp n →
      n ≤ cap.desired + 2 ∧ n ≤ cap.maxSize) := by
  refine ⟨fun n => manage_scaling_scaleUp_iff A avail starting assigned cap n, fun n h => ?_⟩
  obtain ⟨-, -, -, hn⟩ := (manage_scaling_scaleUp_iff A avail starting assigned cap n).mp h
  subst hn
  omega

/-- Witness for C7 at a concrete cycle: 5 sessions, 2 instances in
progress, capacity 3 of max 10: the reconciler scales up to 5 (a raise of
exactly 2). -/
theorem c7_scale_up_rule_witness :
    manage_scaling_for_plan 5 1 0 1 { minSize := 0, maxSize := 10, desired := 3 } =
      ScalingAction.scaleUp 5 ∧ 5 ≤ 3 + 2 ∧ 5 ≤ 10 := by
  have h := c7_scale_up_rule 5 1 0 1 { minSize := 0, maxSize := 10, desired := 3 }
  have hs := (h.1 5).mpr (by decide)
  exact ⟨hs, h.2 5 hs⟩

/-- Helper: the UTF-8 encoder distributes over string concatenation. -/
theorem utf8_append (s t : String) : utf8 (s ++ t) = utf8 s ++ utf8 t := by
  unfold utf8
  rw [String.data_append, List.flatMap_append]

/-- C5: the connection identifier is the standard base64 encoding of
`connection_id ++ 0x00 ++ "c" ++ 0x00 ++ data_source` (as bytes), and the
tokenized viewer URL is exactly
`{base}/?token={token}#/client/{identifier}` with the token query string
before the `#` fragment; `create_session_user_and_get_url` builds the same
URL for the ephemeral user's token. -/
theorem c5_url_construction (base token connection_id data_source : String) :
    get_connection_with_token_url base token connection_id data_source =
      base ++ "/?token=" ++ token ++ "#/client/" ++
        base64Encode (utf8 connection_id ++ [0] ++ utf8 "c" ++ [0] ++ utf8 data_source) ∧
    create_session_user_url base token connection_id data_source =
      get_connection_with_token_url base token connection_id data_source := by
  refine ⟨?_, rfl⟩
  unfold get_connection_with_token_url guac_encoded_id
  have hmid : utf8 "\x00c\x00" = [0] ++ utf8 "c" ++ [0] := rfl
  rw [utf8_append, utf8_append, hmid]
  simp [List.append_assoc]

/-- Helper: reading back a row just written returns that row. -/
theorem pool_get_pool_set (pool : List PoolRecord) (r : PoolRecord) :
    pool_get (pool_set pool r) r.instance_id = some r := by
  induction pool with
  | nil => simp [pool_set, pool_get, List.find?]
  | cons x xs ih =>
    unfold pool_set
    by_cases hx : x.instance_id = r.instance_id
    · rw [if_pos hx]
      simp [pool_get, List.find?]
    · rw [if_neg hx]
      unfold pool_get at ih ⊢
      simp only [List.find?]
      have : (x.instance_id == r.instance_id) = false := by
        simpa using hx
      rw [this]
      exact ih

/-- Helper: the conditional-update claim path is exclusive: once a claim
on a row has committed, a second conditional claim on the same row finds
it `assigned` and fails. -/
theorem conditional_claim_second_fails (pool : List PoolRecord)
    (iid sid1 stid1 sid2 stid2 : String)
    (h : (conditional_claim pool iid sid1 stid1).1 = true) :
    (conditional_claim (conditional_claim pool iid sid1 stid1).2 iid sid2 stid2).1 = false := by
  have hex : ∃ r, pool_get pool iid = some r ∧ r.status = InstanceStatus.available := by
    unfold conditional_claim at h
    cases hgg : pool_get pool iid with
    | none => rw [hgg] at h; simp at h
    | some r =>
      by_cases hs : r.status = InstanceStatus.available
      · exact ⟨r, rfl, hs⟩
      · rw [hgg] at h; simp [hs] at h
  obtain ⟨r, hgr, hs⟩ := hex
  have hr : r.instance_id = iid := by
    have := List.find?_some hgr
    simpa using this
  have hstep : (conditional_claim pool iid sid1 stid1).2 =
      pool_set pool
        { r with status := InstanceStatus.assigned, session_id := some sid1,
                 student_id := some stid1 } := by
    simp [conditional_claim, hgr, hs]
  have h2 : pool_get
      (pool_set pool
        { r with status := InstanceStatus.assigned, session_id := some sid1,
                 student_id := some stid1 }) iid =
      some { r with status := InstanceStatus.assigned, session_id := some sid1,
                    student_id := some stid1 } := by
    have h3 := pool_get_pool_set pool
      { r with status := InstanceStatus.assigned, session_id := some sid1,
               student_id := some stid1 }
    simpa [hr] using h3
  rw [hstep]
  unfold conditional_claim
  rw [h2]
  simp [InstanceStatus.assigned, InstanceStatus.available]

/-- C1 at the failing input: one pool row for `i-X` reads `available`; two
concurrent create-session invocations, having found nothing in their claim
loop, both reach the cold-start path and read the same snapshot; `can_use`
is true for both, and both then commit the unconditional `put_item`
(`put_claim`).  The row transitions from `available` to `assigned` with no
conditional update, both claim attempts succeed, and the second silently
overwrites the first, so two sessions hold the same instance. -/
theorem c1_put_claim_double_assign :
    (pool_get c1_pool0 "i-X").map PoolRecord.status = some InstanceStatus.available ∧
    cold_start_can_use (pool_get c1_pool0 "i-X") (fun _ => none) = true ∧
    put_claim c1_pool0 "i-X" "sess-a" "uA" "pro" =
      [{ instance_id := "i-X", status := InstanceStatus.assigned, plan := "pro",
         session_id := some "sess-a", student_id := some "uA" }] ∧
    put_claim (put_claim c1_pool0 "i-X" "sess-a" "uA" "pro") "i-X" "sess-b" "uB" "pro" =
      [{ instance_id := "i-X", status := InstanceStatus.assigned, plan := "pro",
         session_id := some "sess-b", student_id := some "uB" }] := by
  refine ⟨rfl, rfl, rfl, rfl⟩

/-- Helper: with a finite quota, `check_quota` computes the branch that
reads the stored usage. -/
theorem check_quota_finite (consumed quota : Int) (d : MonthDate) (hq : quota ≠ -1) :
    check_quota consumed quota d =
      { allowed := decide (quota - consumed > 0)
        consumed_minutes := consumed
        remaining_minutes := max 0 (quota - consumed)
        resets_at := some (next_month_start d) } := by
  unfold check_quota
  rw [if_neg hq]

/-- C3: with the usage table configured and a finite quota, a request whose
stored consumption has reached the quota is answered by the 403
quota-exceeded response carrying `remaining_minutes = 0` and
`resets_at` = the first instant of the next calendar month (year rolled
over from December by `next_month_start`), with an empty write trace — in
particular no session record is created. -/
theorem c3_quota_enforcement (env : CreateEnv)
    (hU : env.usage_table_configured = true)
    (hq : env.quota_minutes ≠ -1)
    (hover : env.quota_minutes ≤ env.consumed) :
    create_session_handler env =
      (CreateResp.quotaExceeded env.plan env.consumed env.quota_minutes 0
        (some (next_month_start env.now_date)), []) := by
  have hqc := check_quota_finite env.consumed env.quota_minutes env.now_date hq
  have hallow : (check_quota env.consumed env.quota_minutes env.now_date).allowed = false := by
    rw [hqc]
    simp only [decide_eq_false_iff_not, not_lt]
    omega
  unfold create_session_handler
  rw [if_pos ⟨hU, hq⟩]
  simp only [hallow, Bool.false_eq_true, if_false]
  rw [hqc]

/-- Witness for C3 at the fixture of spec scenario S3: user u4, freemium,
quota 300 fully consumed in December 2025; the handler returns the 403
quota response resetting on 2026-01-01 and writes nothing. -/
theorem c3_quota_enforcement_witness :
    sample_base_env.usage_table_configured = true ∧
    sample_base_env.quota_minutes ≠ -1 ∧
    sample_base_env.quota_minutes ≤ sample_base_env.consumed ∧
    create_session_handler sample_base_env =
      (CreateResp.quotaExceeded "freemium" 300 300 0 (some { year := 2026, month := 1 }), []) := by
  refine ⟨rfl, by decide, by decide, ?_⟩
  have h := c3_quota_enforcement sample_base_env rfl (by decide) (by decide)
  exact h.trans (by decide)

/-- Helper: the allocation phase never answers with the quota response. -/
theorem allocate_new_not_quota (env : CreateEnv) :
    (allocate_new env).1.isQuotaExceeded = false := by
  simp only [allocate_new]
  repeat' split
  all_goals rfl

/-- Helper: the duplicate-session phase never answers with the quota
response. -/
theorem after_quota_not_quota (env : CreateEnv) :
    (after_quota env).1.isQuotaExceeded = false := by
  simp only [after_quota]
  repeat' split
  all_goals first
    | rfl
    | exact allocate_new_not_quota env

/-- C4: with `quota_minutes = -1`, `check_quota` reports
`allowed = true` and `remaining_minutes = -1` whatever the consumption,
and the create-session handler never returns the 403 quota-exceeded
response. -/
theorem c4_unlimited_quota (env : CreateEnv) (consumed : Int) (d : MonthDate)
    (hq : env.quota_minutes = -1) :
    check_quota consumed (-1) d =
      { allowed := true, consumed_minutes := 0, remaining_minutes := -1, resets_at := none } ∧
    (create_session_handler env).1.isQuotaExceeded = false := by
  constructor
  · unfold check_quota
    rw [if_pos rfl]
  · unfold create_session_handler
    rw [if_neg (by rintro ⟨-, h⟩; exact h hq)]
    exact after_quota_not_quota env

/-- Witness for C4: a user with 99999 consumed minutes on an unlimited
plan gets `allowed = true`, `remaining = -1`, and no quota rejection. -/
theorem c4_unlimited_quota_witness :
    sample_unlimited_env.quota_minutes = -1 ∧
    check_quota 99999 (-1) { year := 2025, month := 12 } =
      { allowed := true, consumed_minutes := 0, remaining_minutes := -1, resets_at := none } ∧
    (create_session_handler sample_unlimited_env).1.isQuotaExceeded = false := by
  have h := c4_unlimited_quota sample_unlimited_env 99999 { year := 2025, month := 12 } rfl
  exact ⟨rfl, h.1, h.2⟩

/-- Helper: when the quota gate does not reject (table unconfigured,
unlimited quota, or quota allowed), the handler proceeds to the
duplicate-session phase. -/
theorem create_session_passes_quota (env : CreateEnv)
    (hq : env.usage_table_configured = false ∨ env.quota_minutes = -1 ∨
      (check_quota env.consumed env.quota_minutes env.now_date).allowed = true) :
    create_session_handler env = after_quota env := by
  unfold create_session_handler
  by_cases hc : env.usage_table_configured = true ∧ env.quota_minutes ≠ -1
  · rw [if_pos hc]
    rcases hq with h | h | h
    · rw [h] at hc
      exact absurd hc.1 (by simp)
    · exact absurd h hc.2
    · simp [h]
  · rw [if_neg hc]

/-- Helper: the allocation phase always attempts the write of the new
pending session record. -/
theorem sessPut_mem_allocate_new (env : CreateEnv) :
    Effect.sessPut (new_session_record env) ∈ (allocate_new env).2 := by
  simp only [allocate_new]
  repeat' split
  all_goals simp

/-- C8: when the owner already holds `MAX_SESSIONS` active sessions, the
gateway reports no active connection for the existing session's connection
id, and that session's `last_active_at` plus any grace period is in the
past, the create-session handler marks the existing session terminated
with reason `stale_guacamole_logout` (the spec's `stale_gateway_logout`),
releases its instance to the pool, best-effort deletes its gateway
connection and ephemeral user, and falls through to allocation by writing
a fresh pending session record.  The source performs the reaping whenever
the gateway probe reports no connection, so in particular under the
claim's grace-period hypothesis. -/
theorem c8_stale_session_reaping (env : CreateEnv) (s : Session) (rest : List Session)
    (cid iid user : String) (grace : Nat)
    (hq : env.usage_table_configured = false ∨ env.quota_minutes = -1 ∨
      (check_quota env.consumed env.quota_minutes env.now_date).allowed = true)
    (hactive : env.existing_sessions.filter (fun t => active_status t.status) = s :: rest)
    (hmax : env.max_sessions ≤ (s :: rest).length)
    (hcid : s.connection_info.guacamole_connection_id = some cid)
    (hconn : env.guac_active cid = false)
    (hgrace : s.last_active_at + grace < env.now)
    (hinst : s.instance_id = some iid)
    (huser : s.connection_info.guacamole_session_user = some user)
    (hguac : env.guac_url_configured = true) :
    Effect.sessMarkTerminated s.session_id "stale_guacamole_logout" ∈
      (create_session_handler env).2 ∧
    Effect.poolRelease iid ∈ (create_session_handler env).2 ∧
    Effect.guacDeleteConnection cid ∈ (create_session_handler env).2 ∧
    Effect.guacDeleteUser user ∈ (create_session_handler env).2 ∧
    Effect.sessPut (new_session_record env) ∈ (create_session_handler env).2 := by
  have hres : (create_session_handler env).2 =
      cleanup_stale_session env s ++ (allocate_new env).2 := by
    rw [create_session_passes_quota env hq]
    simp only [after_quota, hactive]
    rw [if_pos hmax]
    simp only [hcid]
    rw [if_neg (by simp [hconn])]
  rw [hres]
  have hclean : cleanup_stale_session env s =
      Effect.sessMarkTerminated s.session_id "stale_guacamole_logout" ::
        ([Effect.poolRelease iid] ++
          ([Effect.guacDeleteConnection cid] ++ [Effect.guacDeleteUser user])) := by
    unfold cleanup_stale_session
    rw [hinst, hcid, huser]
    rw [if_pos ⟨hguac, Or.inl rfl⟩]
  rw [hclean]
  refine ⟨by simp, by simp, by simp, by simp, ?_⟩
  exact List.mem_append_right _ (sessPut_mem_allocate_new env)

/-- Witness for C8 at the fixture of spec scenario S4: u5's ready session
with connection `c1` is reaped and a fresh pending record is written. -/
theorem c8_stale_session_reaping_witness :
    sample_stale_env.existing_sessions.filter (fun t => active_status t.status) =
      [sample_stale_session] ∧
    sample_stale_session.last_active_at + 120 < sample_stale_env.now ∧
    Effect.sessMarkTerminated "sess-old00001" "stale_guacamole_logout" ∈
      (create_session_handler sample_stale_env).2 ∧
    Effect.poolRelease "i-X" ∈ (create_session_handler sample_stale_env).2 ∧
    Effect.guacDeleteConnection "c1" ∈ (create_session_handler sample_stale_env).2 ∧
    Effect.guacDeleteUser "session_old00001" ∈ (create_session_handler sample_stale_env).2 ∧
    Effect.sessPut (new_session_record sample_stale_env) ∈
      (create_session_handler sample_stale_env).2 := by
  have h := c8_stale_session_reaping sample_stale_env sample_stale_session []
    "c1" "i-X" "session_old00001" 120 (Or.inr (Or.inl rfl)) rfl (by decide) rfl rfl
    (by decide) rfl rfl rfl
  exact ⟨rfl, by decide, h.1, h.2.1, h.2.2.1, h.2.2.2.1, h.2.2.2.2⟩

/-- Helper: last element of the termination trace shape. -/
theorem getLast_cons_append3 (a : Effect) (l1 l2 l3 : List Effect) (e : Effect) :
    (a :: (l1 ++ l2 ++ l3 ++ [e])).getLast? = some e := by
  rw [show a :: (l1 ++ l2 ++ l3 ++ [e]) = (a :: (l1 ++ l2 ++ l3)) ++ [e] by simp]
  exact List.getLast?_concat _

/-- C9: for a session that is not already terminated or terminating, the
terminate handler's response is the success response and the final write
of status `terminated` is the last write of the trace — for every oracle
assignment, i.e. even when killing gateway sessions, deleting the
connection or ephemeral user, tagging, stopping the instance, releasing
the pool row or recording usage fails (all those failures are swallowed by
the source and never surface as a failure of the termination). -/
theorem c9_termination_commits (env : TermEnv) (s : Session)
    (hfound : env.session = some s)
    (hterm : s.status ≠ SessionStatus.terminated)
    (hterming : s.status ≠ SessionStatus.terminating) :
    ∃ stopped,
      (terminate_session_handler env).1 = TermResp.terminated s.session_id stopped ∧
      ((terminate_session_handler env).2).getLast? =
        some (Effect.sessSetTerminatedFinal s.session_id) := by
  have hcond : (s.status == SessionStatus.terminated ||
      s.status == SessionStatus.terminating) = false := by
    simp [hterm, hterming]
  refine ⟨(match s.instance_id with
    | some iid => env.stop_instance && env.stop_ok iid
    | none => false), ?_, ?_⟩
  · simp only [terminate_session_handler, hfound, hcond, Bool.false_eq_true, if_false]
  · simp only [terminate_session_handler, hfound, hcond, Bool.false_eq_true, if_false]
    exact getLast_cons_append3 _ _ _ _ _

/-- Witness for C9: terminating the fixture ready session with every
fallible step failing still produces the success response and ends with
the final terminated write. -/
theorem c9_termination_commits_witness :
    sample_term_env.session = some sample_term_session ∧
    ∃ stopped,
      (terminate_session_handler sample_term_env).1 =
        TermResp.terminated "sess-t1" stopped ∧
      ((terminate_session_handler sample_term_env).2).getLast? =
        some (Effect.sessSetTerminatedFinal "sess-t1") :=
  ⟨rfl, c9_termination_commits sample_term_env sample_term_session rfl
    (by decide) (by decide)⟩

/-- C10: calling the terminate handler on a session whose status is
already `terminated` or `terminating` returns the success response
"already terminated" with an empty write trace: no session, pool, cloud,
tag or usage state is touched and no minutes are charged. -/
theorem c10_terminate_idempotent (env : TermEnv) (s : Session)
    (hfound : env.session = some s)
    (hdone : s.status = SessionStatus.terminated ∨ s.status = SessionStatus.terminating) :
    terminate_session_handler env = (TermResp.alreadyTerminated s.status, []) := by
  have hcond : (s.status == SessionStatus.terminated ||
      s.status == SessionStatus.terminating) = true := by
    rcases hdone with h | h <;> simp [h]
  simp [terminate_session_handler, hfound, hcond]

/-- Witness for C10: deleting an already-terminated session answers
success and writes nothing. -/
theorem c10_terminate_idempotent_witness :
    terminate_session_handler sample_term_done_env =
      (TermResp.alreadyTerminated "terminated", []) :=
  c10_terminate_idempotent sample_term_done_env
    { sample_term_session with status := SessionStatus.terminated } rfl (Or.inl rfl)

/-- C6 counterexample: a token whose signature matches, whose payload is
unexpired, and whose nonce was last seen 1000 seconds ago — far outside
the spec's 5-minute replay window — is rejected by the source
(`verify_token` returns `None`), while the spec's acceptance rule
(`verify_token_spec`, nonce not seen within the last 300 seconds) accepts
it: the stored set keeps nonce names forever, with no timestamps. -/
theorem c6_replay_window_counterexample :
    verify_token
        { secret := "k", used_nonces := noncesOf [("n1", 0)] }
        (fun _ _ => "sig")
        (fun _ => some { user_id := "u1", expires := 99999, nonce := "n1" })
        1000 "payload.sig" = none ∧
    verify_token_spec "k" [("n1", 0)]
        (fun _ _ => "sig")
        (fun _ => some { user_id := "u1", expires := 99999, nonce := "n1" })
        1000 "payload.sig" =
      some { user_id := "u1", expires := 99999, nonce := "n1" } :=
  ⟨rfl, rfl⟩

/-- C6 (amended): for a token splitting into `<payload-b64url>.<hex-sig>`,
`verify_token` returns the decoded payload exactly when the token and
secret are non-empty, the signature equals the HMAC-SHA256 hex digest of
the payload part under the shared secret (`compare_digest`, functionally
string equality), the payload decodes, its `expires` field is not in the
past, and its nonce (when present) has never been recorded in the
verifier's in-memory nonce set — at any earlier time, not merely within
the last 5 minutes; otherwise it returns no payload. -/
theorem c6_verify_token_amended (st : VerifierState) (hm : String → String → String)
    (dec : String → Option TokenPayload) (nowT : Int) (token b64 sig : String)
    (p : TokenPayload) (hsplit : splitDot token = [b64, sig]) :
    verify_token st hm dec nowT token = some p ↔
      (token ≠ "" ∧ st.secret ≠ "" ∧ sig = hm st.secret b64 ∧ dec b64 = some p ∧
        ¬ nowT > p.expires ∧ (p.nonce ≠ "" → p.nonce ∉ st.used_nonces)) := by
  unfold verify_token
  rw [hsplit]
  by_cases h0 : token = "" ∨ st.secret = ""
  · rw [if_pos h0]
    constructor
    · intro h
      exact Option.noConfusion h
    · rintro ⟨h1, h2, -⟩
      rcases h0 with h | h
      · exact absurd h h1
      · exact absurd h h2
  · rw [if_neg h0]
    push_neg at h0
    obtain ⟨ht, hsec⟩ := h0
    simp only []
    by_cases h1 : sig = hm st.secret b64
    · rw [if_pos h1]
      cases hd : dec b64 with
      | none =>
        constructor
        · intro h
          exact Option.noConfusion h
        · rintro ⟨-, -, -, hdp, -⟩
          exact Option.noConfusion hdp
      | some q =>
        simp only []
        by_cases h2 : nowT > q.expires
        · rw [if_pos h2]
          constructor
          · intro h
            exact Option.noConfusion h
          · rintro ⟨-, -, -, hdp, hexp, -⟩
            injection hdp with hqp
            rw [hqp] at h2
            exact absurd h2 hexp
        · rw [if_neg h2]
          by_cases h3 : q.nonce ≠ ""
          · rw [if_pos h3]
            by_cases h4 : q.nonce ∈ st.used_nonces
            · rw [if_pos h4]
              constructor
              · intro h
                exact Option.noConfusion h
              · rintro ⟨-, -, -, hdp, -, hn⟩
                injection hdp with hqp
                rw [hqp] at h3 h4
                exact absurd h4 (hn h3)
            · rw [if_neg h4]
              constructor
              · intro h
                injection h with hqp
                refine ⟨ht, hsec, h1, ?_, ?_, ?_⟩
                · rw [hqp]
                · rw [← hqp]
                  exact h2
                · intro hne
                  rw [← hqp]
                  exact h4
              · rintro ⟨-, -, -, hdp, -, -⟩
                exact hdp
          · rw [if_neg h3]
            push_neg at h3
            constructor
            · intro h
              injection h with hqp
              refine ⟨ht, hsec, h1, ?_, ?_, ?_⟩
              · rw [hqp]
              · rw [← hqp]
                exact h2
              · intro hne
                rw [← hqp] at hne
                exact absurd h3 hne
            · rintro ⟨-, -, -, hdp, -, -⟩
              exact hdp
    · rw [if_neg h1]
      constructor
      · intro h
        exact Option.noConfusion h
      · rintro ⟨-, -, hsig, -⟩
        exact absurd hsig h1

/-- Witness for the amended C6: a well-formed token with matching
signature, future expiry and a fresh nonce is accepted and its payload
returned. -/
theorem c6_verify_token_amended_witness :
    splitDot "abc.s" = ["abc", "s"] ∧
    verify_token { secret := "k", used_nonces := [] } (fun _ _ => "s")
        (fun _ => some { user_id := "u1", expires := 5, nonce := "n2" })
        4 "abc.s" = some { user_id := "u1", expires := 5, nonce := "n2" } := by
  refine ⟨rfl, ?_⟩
  exact (c6_verify_token_amended { secret := "k", used_nonces := [] } (fun _ _ => "s")
    (fun _ => some { user_id := "u1", expires := 5, nonce := "n2" })
    4 "abc.s" "abc" "s" { user_id := "u1", expires := 5, nonce := "n2" } rfl).mpr
    (by refine ⟨by decide, by decide, rfl, rfl, by decide, ?_⟩; intro h; simp)

end Cylynk
